import Mathlib

/-!
Verification development for the smolapps crate: a shallow embedding of the
TFTP wire codec (src/wire/tftp.rs), the TFTP server dispatcher and transfer
state machine (src/tftp/mod.rs), and the SNTP client engine (src/sntp/mod.rs),
together with theorems settling the frozen specification claims.

Byte buffers are modelled as `List Nat` (each element one octet).  Rust
strings appear on the wire as their UTF-8 bytes; since every string handled
by the program is ASCII, strings are modelled as byte lists as well.
Machine integers are `Nat` (or `Int` for signed quantities) with explicit
`% 2^w` where the source relies on wrapping.  Fallible operations return
`Option` or `Except`; a Rust panic is a dedicated outcome constructor.
-/

namespace Smolapps

/-- The ASCII bytes of a string constant (all strings in the program are ASCII). -/
def strBytes (s : String) : List Nat :=
  s.data.map fun c => c.toNat

/-- Codec error, mirroring smoltcp `Error::Truncated` / `Error::Malformed`
as used by the wire layer. -/
inductive WireError
  | Truncated
  | Malformed
deriving DecidableEq

deriving instance DecidableEq for Except

/-- Read a big-endian u16 spanning offsets `i, i+1` (NetworkEndian::read_u16). -/
def readU16 (buf : List Nat) (i : Nat) : Nat :=
  256 * buf.getD i 0 + buf.getD (i + 1) 0

/-- Big-endian encoding of a u16 value (NetworkEndian::write_u16). -/
def u16be (n : Nat) : List Nat :=
  [n / 256 % 256, n % 256]

/-- Index of the first element satisfying a predicate, mirroring Rust
`iter().position(p)`. -/
def position {α : Type} (p : α → Bool) : List α → Option Nat
  | [] => none
  | b :: rest => if p b then some 0 else (position p rest).map (· + 1)

namespace Tftp

/-- TFTP operation codes (`OpCode` in src/wire/tftp.rs). -/
inductive OpCode
  | Read
  | Write
  | Data
  | Ack
  | Error
  | Unknown (n : Nat)
deriving DecidableEq

/-- `impl From<u16> for OpCode` generated by `enum_with_unknown!`. -/
def OpCode.ofNat (n : Nat) : OpCode :=
  match n with
  | 1 => .Read
  | 2 => .Write
  | 3 => .Data
  | 4 => .Ack
  | 5 => .Error
  | _ => .Unknown n

/-- TFTP error codes (`ErrorCode` in src/wire/tftp.rs). -/
inductive ErrorCode
  | Undefined
  | FileNotFound
  | AccessViolation
  | DiskFull
  | IllegalOperation
  | UnknownID
  | FileExists
  | NoSuchUser
  | Unknown (n : Nat)
deriving DecidableEq

/-- `impl From<ErrorCode> for u16`. -/
def ErrorCode.toNat : ErrorCode → Nat
  | .Undefined => 0
  | .FileNotFound => 1
  | .AccessViolation => 2
  | .DiskFull => 3
  | .IllegalOperation => 4
  | .UnknownID => 5
  | .FileExists => 6
  | .NoSuchUser => 7
  | .Unknown n => n

/-- `impl From<u16> for ErrorCode`. -/
def ErrorCode.ofNat (n : Nat) : ErrorCode :=
  match n with
  | 0 => .Undefined
  | 1 => .FileNotFound
  | 2 => .AccessViolation
  | 3 => .DiskFull
  | 4 => .IllegalOperation
  | 5 => .UnknownID
  | 6 => .FileExists
  | 7 => .NoSuchUser
  | _ => .Unknown n

/-- TFTP transfer modes (`Mode` in src/wire/tftp.rs). -/
inductive Mode
  | NetAscii
  | Octet
  | Mail
  | Unknown
deriving DecidableEq

/-- `Mode::as_str`, as the ASCII bytes of the returned string. -/
def Mode.as_str : Mode → List Nat
  | .NetAscii => strBytes "netascii"
  | .Octet => strBytes "octet"
  | .Mail => strBytes "mail"
  | .Unknown => []

/-- `impl From<u8> for Mode`: only the first byte of the mode string is
inspected, case-folded (78 is N, 110 n, 79 O, 111 o, 77 M, 109 m). -/
def Mode.ofByte (b : Nat) : Mode :=
  if b = 78 ∨ b = 110 then .NetAscii
  else if b = 79 ∨ b = 111 then .Octet
  else if b = 77 ∨ b = 109 then .Mail
  else .Unknown

/-- `Packet::opcode`: big-endian u16 at offset 0.  Precondition from
`check_len`: the buffer holds at least two bytes. -/
def opcode (buf : List Nat) : OpCode :=
  OpCode.ofNat (readU16 buf 0)

/-- `Packet::find_last_null_byte`: index immediately after the final zero
byte, `Err(Truncated)` (here `none`) when no zero byte exists. -/
def find_last_null_byte : List Nat → Option Nat
  | [] => none
  | b :: rest =>
    match find_last_null_byte rest with
    | some p => some (p + 1)
    | none => if b = 0 then some 1 else none

/-- `Packet::check_len` (src/wire/tftp.rs lines 115-131). -/
def check_len (buf : List Nat) : Except WireError Unit :=
  if buf.length < 2 then .error .Truncated
  else
    match opcode buf with
    | .Read | .Write | .Error =>
      match find_last_null_byte buf with
      | none => .error .Truncated
      | some e => if buf.length < e then .error .Truncated else .ok ()
    | .Data | .Ack => if buf.length < 4 then .error .Truncated else .ok ()
    | .Unknown _ => .error .Malformed

/-- `Packet::filename`: the bytes between the opcode and the first zero
byte.  `none` models the Rust panic (`position(..).unwrap()` on `None`,
reached when no zero byte follows the opcode). -/
def filename (buf : List Nat) : Option (List Nat) :=
  match position (fun b => decide (b = 0)) (buf.drop 2) with
  | some l => some ((buf.drop 2).take l)
  | none => none

/-- `Packet::mode`: the byte immediately after the filename terminator.
`none` models a panic: either `filename` panicked, or the index
`2 + filename.len() + 1` is out of bounds. -/
def modeOf (buf : List Nat) : Option Mode :=
  match filename buf with
  | some f =>
    match buf.get? (2 + f.length + 1) with
    | some b => some (Mode.ofByte b)
    | none => none
  | none => none

/-- `Packet::block_number`: big-endian u16 at offset 2.  `none` models the
panic of slicing `buf[2..4]` on a buffer shorter than 4 bytes. -/
def block_number (buf : List Nat) : Option Nat :=
  if 4 ≤ buf.length then some (readU16 buf 2) else none

/-- `Packet::data`: everything from offset 4 on.  `none` models the panic of
slicing `buf[4..]` on a buffer shorter than 4 bytes. -/
def dataOf (buf : List Nat) : Option (List Nat) :=
  if 4 ≤ buf.length then some (buf.drop 4) else none

/-- `Packet::error_code`: big-endian u16 at offset 2, same bound as
`block_number`. -/
def error_code (buf : List Nat) : Option ErrorCode :=
  if 4 ≤ buf.length then some (ErrorCode.ofNat (readU16 buf 2)) else none

/-- `Packet::error_msg`: the bytes `buf[4 .. len-1]`.  `none` models the
panic of that slice when `len < 5`. -/
def error_msg (buf : List Nat) : Option (List Nat) :=
  if 5 ≤ buf.length then some ((buf.drop 4).take (buf.length - 5)) else none

/-- High-level TFTP packet representation (`Repr` in src/wire/tftp.rs). -/
inductive TftpRepr
  | readRequest (filename : List Nat) (mode : Mode)
  | writeRequest (filename : List Nat) (mode : Mode)
  | data (block_num : Nat) (payload : List Nat)
  | ack (block_num : Nat)
  | error (code : ErrorCode) (msg : List Nat)
deriving DecidableEq

/-- Result of `Repr::parse` with Rust panics made explicit. -/
inductive ParseRes
  | ok (r : TftpRepr)
  | err (e : WireError)
  | panic
deriving DecidableEq

/-- `Repr::parse` (src/wire/tftp.rs lines 269-295).  Accessor panics become
`ParseRes.panic`. -/
def parse (buf : List Nat) : ParseRes :=
  match opcode buf with
  | .Read =>
    match filename buf, modeOf buf with
    | some f, some m => .ok (.readRequest f m)
    | _, _ => .panic
  | .Write =>
    match filename buf, modeOf buf with
    | some f, some m => .ok (.writeRequest f m)
    | _, _ => .panic
  | .Data =>
    match block_number buf, dataOf buf with
    | some bn, some d => .ok (.data bn d)
    | _, _ => .panic
  | .Ack =>
    match block_number buf with
    | some bn => .ok (.ack bn)
    | none => .panic
  | .Error =>
    match error_code buf, error_msg buf with
    | some c, some m => .ok (.error c m)
    | _, _ => .panic
  | .Unknown _ => .err .Malformed

/-- `Repr::buffer_len` (src/wire/tftp.rs lines 255-266). -/
def buffer_len : TftpRepr → Nat
  | .readRequest f m => 2 + f.length + 1 + m.as_str.length + 1
  | .writeRequest f m => 2 + f.length + 1 + m.as_str.length + 1
  | .data _ d => 2 + 2 + d.length
  | .ack _ => 4
  | .error _ m => 2 + 2 + m.length + 1

/-- `Repr::emit` into a buffer of exactly `buffer_len` bytes
(src/wire/tftp.rs lines 297-327): the opcode is written big-endian, then the
per-variant fields with their trailing zero bytes, covering every byte of
the buffer. -/
def emit : TftpRepr → List Nat
  | .readRequest f m => [0, 1] ++ f ++ [0] ++ m.as_str ++ [0]
  | .writeRequest f m => [0, 2] ++ f ++ [0] ++ m.as_str ++ [0]
  | .data bn d => [0, 3] ++ u16be bn ++ d
  | .ack bn => [0, 4] ++ u16be bn
  | .error c m => [0, 5] ++ u16be c.toNat ++ m ++ [0]

/-- Validity of a representation for the round-trip property: wire strings
carry no interior zero byte, u16 fields fit in 16 bits, DATA payloads are at
most one block, and error codes are in canonical form (the numeric value
maps back to the same constructor). -/
def wellFormed : TftpRepr → Prop
  | .readRequest f _ => 0 ∉ f
  | .writeRequest f _ => 0 ∉ f
  | .data bn d => bn < 65536 ∧ d.length ≤ 512
  | .ack bn => bn < 65536
  | .error c _ => c.toNat < 65536 ∧ ErrorCode.ofNat c.toNat = c

/-- Composition `emit(parse(b))` used for the canonical byte strings. -/
def emitParse (b : List Nat) : Option (List Nat) :=
  match parse b with
  | .ok r => some (emit r)
  | _ => none

/-! ### TFTP server (src/tftp/mod.rs)

The server is driven by `serve`, one dispatch step per call.  The external
collaborators are modelled explicitly: the UDP socket as a record of the
results its methods would produce during this call plus a log of emitted
packets; the storage `Context` as a pure `open` function; a `Handle` as
scripts of the results its `read`/`write` calls return.  Time (`Instant`)
is `Int` milliseconds, `Duration` is a number of milliseconds. -/

/-- `MAX_RETRIES` (src/tftp/mod.rs line 14). -/
def MAX_RETRIES : Nat := 10

/-- `RETRY_TIMEOUT` in milliseconds (src/tftp/mod.rs line 17). -/
def RETRY_TIMEOUT : Int := 200

/-- An `(IP address, UDP port)` pair; addresses are abstracted to `Nat`. -/
structure IpEndpoint where
  addr : Nat
  port : Nat
deriving DecidableEq

/-- A storage `Handle`: scripts of the results successive `read` and
`write` calls return.  A `read` entry `some bs` means the handle wrote the
chunk `bs` (at most 512 bytes) into the buffer and returned `bs.length`;
`none` means `Err(())`.  A `write` entry `some n` means `Ok(n)`, `none`
means `Err(())`.  An exhausted script behaves as `Err(())`. -/
structure HandleM where
  id : Nat
  reads : List (Option (List Nat))
  writes : List (Option Nat)
deriving DecidableEq

/-- Pop the next scripted `read` result. -/
def HandleM.popRead (h : HandleM) : Option (List Nat) × HandleM :=
  match h.reads with
  | [] => (none, h)
  | r :: rest => (r, { h with reads := rest })

/-- Pop the next scripted `write` result. -/
def HandleM.popWrite (h : HandleM) : Option Nat × HandleM :=
  match h.writes with
  | [] => (none, h)
  | w :: rest => (w, { h with writes := rest })

/-- An active TFTP transfer (`Transfer` in src/tftp/mod.rs); field names
follow the source.  `block_num` is a u16, kept below 2^16 by wrapping
arithmetic at the update sites. -/
structure Transfer where
  handle : HandleM
  ep : IpEndpoint
  is_write : Bool
  block_num : Nat
  last_data : Option (List Nat)
  last_len : Nat
  retries : Nat
  timeout : Int
deriving DecidableEq

/-- The TFTP `Server` state proper: only the next-poll deadline (the socket
handle is part of the environment). -/
structure Server where
  next_poll : Int
deriving DecidableEq

/-- Result of `socket.recv()` for this call: a datagram with its remote
endpoint, `Error::Exhausted`, or any other socket error. -/
inductive RecvRes
  | ok (data : List Nat) (ep : IpEndpoint)
  | exhausted
  | err
deriving DecidableEq

/-- The UDP socket environment for one `serve`/`poll` call: the answers its
methods produce.  `sendOk` tells whether `socket.send` succeeds (a `false`
models a full tx buffer or unaddressable endpoint). -/
structure SockEnv where
  is_open : Bool
  bindOk : Bool
  recv : RecvRes
  can_send : Bool
  sendOk : Bool
deriving DecidableEq

/-- Outcome of a fallible operation, with Rust panics explicit. -/
inductive NetRes (α : Type)
  | ok (a : α)
  | err
  | panic
deriving DecidableEq

/-- A packet handed to `socket.send` and emitted, with its destination. -/
abbrev SentPkt := TftpRepr × IpEndpoint

/-- `send_error` (src/tftp/mod.rs lines 500-512): emit one ERROR packet, or
fail if the socket cannot send. -/
def send_error (env : SockEnv) (ep : IpEndpoint) (code : ErrorCode)
    (msg : List Nat) : NetRes Unit × List SentPkt :=
  if env.sendOk then (.ok (), [(.error code msg, ep)]) else (.err, [])

/-- `Transfer::resend_data` (src/tftp/mod.rs lines 475-488): re-emit the
held DATA block, a no-op when no block was ever read. -/
def Transfer.resend_data (t : Transfer) (env : SockEnv) :
    NetRes Unit × List SentPkt :=
  match t.last_data with
  | some ld =>
    if env.sendOk then (.ok (), [(.data t.block_num (ld.take t.last_len), t.ep)])
    else (.err, [])
  | none => (.ok (), [])

/-- `Transfer::send_data` (src/tftp/mod.rs lines 452-473): allocate the
512-byte block buffer if absent, read the next chunk from the handle (an
error sends an ERROR packet and reports `false`), then resend. -/
def Transfer.send_data (t : Transfer) (env : SockEnv) :
    NetRes Bool × Transfer × List SentPkt :=
  let ld := t.last_data.getD (List.replicate 512 0)
  let (r, h) := t.handle.popRead
  match r with
  | none =>
    let t := { t with handle := h, last_data := some ld }
    match send_error env t.ep .AccessViolation
        (strBytes "Error occurred while reading the file") with
    | (.ok _, s) => (.ok false, t, s)
    | (.err, s) => (.err, t, s)
    | (.panic, s) => (.panic, t, s)
  | some chunk =>
    let t := { t with handle := h,
                      last_data := some (chunk ++ ld.drop chunk.length),
                      last_len := chunk.length }
    match t.resend_data env with
    | (.ok _, s) => (.ok false, t, s)
    | (.err, s) => (.err, t, s)
    | (.panic, s) => (.panic, t, s)

/-- `Transfer::send_ack` (src/tftp/mod.rs lines 490-497). -/
def Transfer.send_ack (t : Transfer) (env : SockEnv) (blk : Nat) :
    NetRes Unit × List SentPkt :=
  if env.sendOk then (.ok (), [(.ack blk, t.ep)]) else (.err, [])

/-- `Transfer::process_timeout` (src/tftp/mod.rs lines 442-450): on an
expired deadline with retries left, bump `retries` and resend; otherwise
report `true` (drop the transfer). -/
def Transfer.process_timeout (t : Transfer) (env : SockEnv) (now : Int) :
    NetRes Bool × Transfer × List SentPkt :=
  if now ≥ t.timeout ∧ t.retries < MAX_RETRIES then
    let t := { t with retries := t.retries + 1 }
    match t.resend_data env with
    | (.ok _, s) => (.ok false, t, s)
    | (.err, s) => (.err, t, s)
    | (.panic, s) => (.panic, t, s)
  else (.ok true, t, [])

/-- The retransmission sweep of the `Exhausted` branch (src/tftp/mod.rs
lines 392-403): run `process_timeout` on every occupied slot, dropping the
slot (and closing its handle) when requested; an error aborts the loop with
the slots processed so far already mutated. -/
def timeoutSweep (env : SockEnv) (now : Int) :
    List (Option Transfer) →
    NetRes Unit × List (Option Transfer) × List SentPkt × List Nat
  | [] => (.ok (), [], [], [])
  | none :: rest =>
    let (res, rest2, s, cl) := timeoutSweep env now rest
    (res, none :: rest2, s, cl)
  | some x :: rest =>
    match x.process_timeout env now with
    | (.ok doDrop, x2, s) =>
      let (slot, cl) :=
        if doDrop then (none, [x2.handle.id]) else (some x2, [])
      let (res, rest2, s2, cl2) := timeoutSweep env now rest
      (res, slot :: rest2, s ++ s2, cl ++ cl2)
    | (.err, x2, s) => (.err, some x2 :: rest, s, [])
    | (.panic, x2, s) => (.panic, some x2 :: rest, s, [])

/-- Whether a transfer slot belongs to endpoint `ep` (the closure of the
`transfers.iter_mut().position(..)` search in `serve`). -/
def epMatch (ep : IpEndpoint) : Option Transfer → Bool
  | some x => decide (x.ep = ep)
  | none => false

/-- The full result of one `serve` call: the returned `net::Result`, the
updated server state and transfer table, every packet emitted, and the ids
of the handles released through `Context::close`. -/
structure ServeOut where
  res : NetRes Unit
  srv : Server
  transfers : List (Option Transfer)
  sent : List SentPkt
  closed : List Nat
deriving DecidableEq

/-- Dispatch of a validated packet (the big `match (tftp_repr, xfer_idx)`
of `serve`, src/tftp/mod.rs lines 201-386).  `openF` is `Context::open`;
the table is a borrowed (fixed-capacity) slice. -/
def dispatch (srv : Server) (env : SockEnv)
    (openF : List Nat → Bool → Option HandleM)
    (transfers : List (Option Transfer)) (now : Int)
    (buf : List Nat) (repr : TftpRepr) (ep : IpEndpoint) : ServeOut :=
  let xferIdx := position (epMatch ep) transfers
  let isWrite := decide (opcode buf = OpCode.Write)
  match repr, xferIdx with
  | .readRequest _ _, some _ | .writeRequest _ _, some _ =>
    let (r, s) := send_error env ep .AccessViolation
        (strBytes "Multiple connections not supported")
    ⟨r, srv, transfers, s, []⟩
  | .readRequest f m, none | .writeRequest f m, none =>
    if m ≠ Mode.Octet then
      let (r, s) := send_error env ep .IllegalOperation
          (strBytes "Only octet mode is supported")
      ⟨r, srv, transfers, s, []⟩
    else
      match position (fun t => t.isNone) transfers with
      | some idx =>
        match openF f isWrite with
        | none =>
          let (r, s) := send_error env ep .FileNotFound
              (strBytes "Unable to open requested file")
          ⟨r, srv, transfers, s, []⟩
        | some handle =>
          let xfer : Transfer :=
            { handle := handle, ep := ep, is_write := isWrite,
              block_num := 1, last_data := none, last_len := 0,
              retries := 0, timeout := now + 50 }
          if isWrite then
            match xfer.send_ack env 0 with
            | (.ok _, s) => ⟨.ok (), srv, transfers.set idx (some xfer), s, []⟩
            | (.err, s) => ⟨.err, srv, transfers, s, []⟩
            | (.panic, s) => ⟨.panic, srv, transfers, s, []⟩
          else
            match xfer.send_data env with
            | (.ok _, x2, s) => ⟨.ok (), srv, transfers.set idx (some x2), s, []⟩
            | (.err, _, s) => ⟨.err, srv, transfers, s, []⟩
            | (.panic, _, s) => ⟨.panic, srv, transfers, s, []⟩
      | none =>
        let (r, s) := send_error env ep .AccessViolation
            (strBytes "No more available connections")
        ⟨r, srv, transfers, s, []⟩
  | .data _ _, none | .ack _, none =>
    let (r, s) := send_error env ep .AccessViolation
        (strBytes "Data packet without active transfer")
    ⟨r, srv, transfers, s, []⟩
  | .data bn d, some idx =>
    match transfers.get? idx with
    | some (some x) =>
      let x := { x with timeout := now + RETRY_TIMEOUT, retries := 0 }
      if x.is_write = false then
        let (r, s) := send_error env ep .AccessViolation
            (strBytes "Not a write connection")
        ⟨r, srv, transfers.set idx (some x), s, []⟩
      else if bn ≠ x.block_num then
        let (r, s) := x.send_ack env ((x.block_num + 65535) % 65536)
        ⟨r, srv, transfers.set idx (some x), s, []⟩
      else
        let x := { x with block_num := (x.block_num + 1) % 65536 }
        let (w, h) := x.handle.popWrite
        let x := { x with handle := h }
        match w with
        | some _ =>
          match x.send_ack env bn with
          | (.ok _, s) =>
            if d.length < 512 then
              ⟨.ok (), srv, transfers.set idx none, s, [x.handle.id]⟩
            else
              ⟨.ok (), srv, transfers.set idx (some x), s, []⟩
          | (.err, s) => ⟨.err, srv, transfers.set idx (some x), s, []⟩
          | (.panic, s) => ⟨.panic, srv, transfers.set idx (some x), s, []⟩
        | none =>
          match send_error env ep .AccessViolation
              (strBytes "Error writing file") with
          | (.ok _, s) =>
            ⟨.ok (), srv, transfers.set idx none, s, [x.handle.id]⟩
          | (.err, s) => ⟨.err, srv, transfers.set idx (some x), s, []⟩
          | (.panic, s) => ⟨.panic, srv, transfers.set idx (some x), s, []⟩
    | _ => ⟨.panic, srv, transfers, [], []⟩
  | .ack bn, some idx =>
    match transfers.get? idx with
    | some (some x) =>
      let x := { x with timeout := now + RETRY_TIMEOUT, retries := 0 }
      if x.is_write then
        let (r, s) := send_error env ep .AccessViolation
            (strBytes "Not a read connection")
        ⟨r, srv, transfers.set idx (some x), s, []⟩
      else if bn ≠ x.block_num then
        let (r, s) := x.resend_data env
        ⟨r, srv, transfers.set idx (some x), s, []⟩
      else
        let x := { x with block_num := (x.block_num + 1) % 65536 }
        if x.last_len = 512 then
          match x.send_data env with
          | (.ok _, x2, s) => ⟨.ok (), srv, transfers.set idx (some x2), s, []⟩
          | (.err, x2, s) => ⟨.err, srv, transfers.set idx (some x2), s, []⟩
          | (.panic, x2, s) => ⟨.panic, srv, transfers.set idx (some x2), s, []⟩
        else
          ⟨.ok (), srv, transfers.set idx none, [], [x.handle.id]⟩
    | _ => ⟨.panic, srv, transfers, [], []⟩
  | .error _ _, _ =>
    let (r, s) := send_error env ep .IllegalOperation
        (strBytes "Unknown operation")
    ⟨r, srv, transfers, s, []⟩

/-- `Server::serve` (src/tftp/mod.rs lines 136-409): lazy bind, schedule the
next activation 50 ms ahead, then either dispatch the received datagram or,
on `Exhausted`, run the retransmission sweep behind its timing guard. -/
def serve (srv : Server) (env : SockEnv)
    (openF : List Nat → Bool → Option HandleM)
    (transfers : List (Option Transfer)) (now : Int) : ServeOut :=
  if env.is_open = false ∧ env.bindOk = false then
    ⟨.err, srv, transfers, [], []⟩
  else
    let srv : Server := { next_poll := now + 50 }
    match env.recv with
    | .ok data ep =>
      match check_len data with
      | .error _ =>
        let (r, s) := send_error env ep .AccessViolation
            (strBytes "Packet truncated")
        ⟨r, srv, transfers, s, []⟩
      | .ok _ =>
        match parse data with
        | .panic => ⟨.panic, srv, transfers, [], []⟩
        | .err _ =>
          let (r, s) := send_error env ep .AccessViolation
              (strBytes "Malformed packet")
          ⟨r, srv, transfers, s, []⟩
        | .ok repr => dispatch srv env openF transfers now data repr ep
    | .exhausted =>
      if env.can_send = true ∧ now ≥ srv.next_poll then
        let (res, transfers2, s, cl) := timeoutSweep env now transfers
        ⟨res, srv, transfers2, s, cl⟩
      else
        ⟨.ok (), srv, transfers, [], []⟩
    | .err => ⟨.err, srv, transfers, [], []⟩

/- Note: `Server::next_poll` would be `self.next_poll - now`; that subtraction
is smoltcp `Instant - Instant`, defined outside this repository, so it is not
modelled here (see the claim record for C8). -/

end Tftp

namespace Sntp

/-! ### SNTP wire codec

The file src/wire/sntp.rs is declared by src/wire/mod.rs but is not present
under src/; the definitions of this section are modelled from the
specification (sections 3 and 4.A). -/

/-- Modelled from the spec: an NTP timestamp, 32-bit seconds since 1900
plus a 32-bit fraction (spec section 3, `Timestamp`). -/
structure Timestamp where
  sec : Nat
  frac : Nat
deriving DecidableEq

/-- Modelled from the spec: the leap-indicator field (spec section 3). -/
inductive LeapIndicator
  | NoWarning
  | SixtyOne
  | FiftyNine
  | Unsynchronized
deriving DecidableEq

/-- Modelled from the spec: decode of the 2-bit leap indicator. -/
def LeapIndicator.ofBits (n : Nat) : LeapIndicator :=
  match n with
  | 0 => .NoWarning
  | 1 => .SixtyOne
  | 2 => .FiftyNine
  | _ => .Unsynchronized

/-- Modelled from the spec: the protocol-mode field (spec section 3). -/
inductive ProtocolMode
  | Reserved
  | SymActive
  | SymPassive
  | Client
  | Server
  | Broadcast
  | Control
  | Private
  | Unknown (n : Nat)
deriving DecidableEq

/-- Modelled from the spec: decode of the 3-bit mode field per RFC 4330
(0 reserved, 1 symmetric active, 2 symmetric passive, 3 client, 4 server,
5 broadcast, 6 control, 7 private). -/
def ProtocolMode.ofNat (n : Nat) : ProtocolMode :=
  match n with
  | 0 => .Reserved
  | 1 => .SymActive
  | 2 => .SymPassive
  | 3 => .Client
  | 4 => .Server
  | 5 => .Broadcast
  | 6 => .Control
  | 7 => .Private
  | _ => .Unknown n

/-- Modelled from the spec: the stratum field (spec section 3: 0 is
Kiss-of-Death, 1 primary, 2..=15 secondary, 16 unsynchronized, the rest
reserved). -/
inductive Stratum
  | KissOfDeath
  | Primary
  | Secondary (n : Nat)
  | Unsynchronized
  | Reserved
deriving DecidableEq

/-- Modelled from the spec: decode of the stratum byte. -/
def Stratum.ofNat (n : Nat) : Stratum :=
  if n = 0 then .KissOfDeath
  else if n = 1 then .Primary
  else if n ≤ 15 then .Secondary n
  else if n = 16 then .Unsynchronized
  else .Reserved

/-- Modelled from the spec: the high-level SNTP record (`SntpRepr`, spec
section 3); field names follow the spec. -/
structure SntpRepr where
  leap_indicator : LeapIndicator
  version : Nat
  protocol_mode : ProtocolMode
  stratum : Stratum
  poll_interval : Int
  precision : Int
  root_delay : Nat
  root_dispersion : Nat
  ref_identifier : List Nat
  ref_timestamp : Timestamp
  orig_timestamp : Timestamp
  recv_timestamp : Timestamp
  xmit_timestamp : Timestamp
deriving DecidableEq

/-- Read a big-endian u32 spanning offsets `i .. i+3`. -/
def readU32 (buf : List Nat) (i : Nat) : Nat :=
  ((buf.getD i 0 * 256 + buf.getD (i + 1) 0) * 256 + buf.getD (i + 2) 0)
    * 256 + buf.getD (i + 3) 0

/-- Interpretation of a byte as a signed i8 (two's complement). -/
def i8OfByte (b : Nat) : Int :=
  if b < 128 then (b : Int) else (b : Int) - 256

/-- Modelled from the spec: the 8-byte timestamp at offset `i` (seconds
then fraction, both big-endian; spec section 4.A). -/
def timestampAt (buf : List Nat) (i : Nat) : Timestamp :=
  ⟨readU32 buf i, readU32 buf (i + 4)⟩

/-- Modelled from the spec: `check_len` of the SNTP codec fails
`Truncated` when the buffer is shorter than 48 bytes (spec section 4.A). -/
def sntpCheckLen (buf : List Nat) : Except WireError Unit :=
  if buf.length < 48 then .error .Truncated else .ok ()

/-- Modelled from the spec: `parse` of the SNTP codec over the RFC 4330
layout (spec section 4.A): byte 0 packs LI:2 VN:3 Mode:3 MSB first, byte 1
stratum, byte 2 poll interval, byte 3 precision, then root delay, root
dispersion, reference identifier, and the four timestamps; it never fails
on a length-checked buffer. -/
def sntpParse (buf : List Nat) : SntpRepr :=
  { leap_indicator := LeapIndicator.ofBits (buf.getD 0 0 / 64),
    version := buf.getD 0 0 / 8 % 8,
    protocol_mode := ProtocolMode.ofNat (buf.getD 0 0 % 8),
    stratum := Stratum.ofNat (buf.getD 1 0),
    poll_interval := i8OfByte (buf.getD 2 0),
    precision := i8OfByte (buf.getD 3 0),
    root_delay := readU32 buf 4,
    root_dispersion := readU32 buf 8,
    ref_identifier := (buf.drop 12).take 4,
    ref_timestamp := timestampAt buf 16,
    orig_timestamp := timestampAt buf 24,
    recv_timestamp := timestampAt buf 32,
    xmit_timestamp := timestampAt buf 40 }

/-! ### SNTP client engine (src/sntp/mod.rs) -/

/-- `MIN_REQUEST_INTERVAL` in milliseconds (src/sntp/mod.rs line 12). -/
def MIN_REQUEST_INTERVAL : Nat := 60000

/-- `MAX_REQUEST_INTERVAL` in milliseconds (src/sntp/mod.rs line 15). -/
def MAX_REQUEST_INTERVAL : Nat := 86400000

/-- `DIFF_SEC_1970_2036` (src/sntp/mod.rs line 21). -/
def DIFF_SEC_1970_2036 : Nat := 2085978496

/-- The SNTP `Client` state: the next-request deadline and the current
backoff interval (the socket handle and server address live in the
environment).  Field names follow the source. -/
structure Client where
  next_request : Int
  curr_interval : Nat
deriving DecidableEq

/-- Result of `socket.recv()` for one `poll` call (the remote endpoint is
ignored by the source). -/
inductive SRecv
  | ok (data : List Nat)
  | exhausted
  | err
deriving DecidableEq

/-- The socket environment of one `poll` call. -/
structure SntpEnv where
  is_open : Bool
  bindOk : Bool
  recv : SRecv
  can_send : Bool
  sendOk : Bool
deriving DecidableEq

/-- The `Result<Option<u32>>` returned by `Client::poll`. -/
inductive PollRes
  | ok (t : Option Nat)
  | err
deriving DecidableEq

/-- `Client::receive` (src/sntp/mod.rs lines 147-182): length-check and
parse the datagram (failures yield no timestamp), reject a non-Server mode
and a Kiss-of-Death stratum, else convert the transmit seconds to a Unix
timestamp with wrapping u32 addition of `DIFF_SEC_1970_2036`. -/
def receive (data : List Nat) : Option Nat :=
  match sntpCheckLen data with
  | .error _ => none
  | .ok _ =>
    let r := sntpParse data
    if r.protocol_mode ≠ ProtocolMode.Server then none
    else if r.stratum = Stratum.KissOfDeath then none
    else some ((r.xmit_timestamp.sec + DIFF_SEC_1970_2036) % 4294967296)

/-- `Client::poll` (src/sntp/mod.rs lines 109-144): lazy bind, one receive
(`Exhausted` means no packet, other errors propagate), then either accept a
timestamp (pushing `next_request` a full `MAX_REQUEST_INTERVAL` ahead) or,
when the deadline has expired and the socket can send, emit a request and
double the backoff interval.  `Client::request` (lines 185-214) only
touches the socket, so a send failure propagates with the state intact. -/
def poll (c : Client) (env : SntpEnv) (now : Int) : PollRes × Client :=
  if env.is_open = false ∧ env.bindOk = false then (.err, c)
  else
    match env.recv with
    | .err => (.err, c)
    | rr =>
      let timestamp : Option Nat :=
        match rr with
        | .ok data => receive data
        | _ => none
      match timestamp with
      | some ts =>
        (.ok (some ts), { c with next_request := now + (MAX_REQUEST_INTERVAL : Int) })
      | none =>
        if env.can_send = true ∧ now ≥ c.next_request then
          if env.sendOk then
            (.ok none,
             { next_request := now + (c.curr_interval : Int),
               curr_interval := min MAX_REQUEST_INTERVAL (c.curr_interval * 2) })
          else (.err, c)
        else (.ok none, c)

/- Note: `Client::next_poll` would be `self.next_request - now`; that
subtraction is smoltcp `Instant - Instant`, defined outside this repository,
so it is not modelled here (see the claim record for C8). -/

/-- A 48-byte server response: byte 0 is 0x24 (leap 0, version 4, mode 4 =
Server), stratum 1, every other field zero (so the transmit seconds are 0). -/
def okResponse : List Nat := 36 :: 1 :: List.replicate 46 0

/-- A 48-byte Kiss-of-Death response: same header but stratum 0. -/
def kodResponse : List Nat := 36 :: 0 :: List.replicate 46 0

/-- A client fresh out of the constructor at time 0 (src/sntp/mod.rs lines
90-95). -/
def client0 : Client :=
  { next_request := 0, curr_interval := MIN_REQUEST_INTERVAL }

/-- A socket environment delivering datagram `d` on an open, sendable
socket. -/
def senv (d : List Nat) : SntpEnv :=
  { is_open := true, bindOk := true, recv := .ok d,
    can_send := true, sendOk := true }

/-- A socket environment whose lazy bind fails. -/
def senvBindFail : SntpEnv :=
  { is_open := false, bindOk := false, recv := .exhausted,
    can_send := true, sendOk := true }

end Sntp

/-! ### Concrete fixtures

Canonical byte strings from the reference tests in src/wire/tftp.rs, and
the concrete states used by the closed theorems below. -/

namespace Tftp

/-- Canonical RRQ byte string from the reference tests. -/
def RRQ_BYTES : List Nat :=
  [0x00, 0x01, 0x72, 0x66, 0x63, 0x31, 0x33, 0x35, 0x30, 0x2e, 0x74, 0x78,
   0x74, 0x00, 0x6f, 0x63, 0x74, 0x65, 0x74, 0x00]

/-- Canonical WRQ byte string from the reference tests. -/
def WRQ_BYTES : List Nat :=
  [0x00, 0x02, 0x72, 0x66, 0x63, 0x31, 0x33, 0x35, 0x30, 0x2e, 0x74, 0x78,
   0x74, 0x00, 0x6f, 0x63, 0x74, 0x65, 0x74, 0x00]

/-- Canonical DATA byte string from the reference tests (516 bytes). -/
def DATA_BYTES : List Nat :=
  [0x00, 0x03, 0x00, 0x01, 0x0a, 0x0a, 0x0a, 0x0a, 0x0a, 0x0a, 0x4e, 0x65,
   0x74, 0x77, 0x6f, 0x72, 0x6b, 0x20, 0x57, 0x6f, 0x72, 0x6b, 0x69, 0x6e,
   0x67, 0x20, 0x47, 0x72, 0x6f, 0x75, 0x70, 0x20, 0x20, 0x20, 0x20, 0x20,
   0x20, 0x20, 0x20, 0x20, 0x20, 0x20, 0x20, 0x20, 0x20, 0x20, 0x20, 0x20,
   0x20, 0x20, 0x20, 0x20, 0x20, 0x20, 0x20, 0x20, 0x20, 0x20, 0x20, 0x20,
   0x20, 0x20, 0x20, 0x20, 0x20, 0x20, 0x20, 0x20, 0x20, 0x20, 0x20, 0x20,
   0x4b, 0x2e, 0x20, 0x53, 0x6f, 0x6c, 0x6c, 0x69, 0x6e, 0x73, 0x0a, 0x52,
   0x65, 0x71, 0x75, 0x65, 0x73, 0x74, 0x20, 0x46, 0x6f, 0x72, 0x20, 0x43,
   0x6f, 0x6d, 0x6d, 0x65, 0x6e, 0x74, 0x73, 0x3a, 0x20, 0x31, 0x33, 0x35,
   0x30, 0x20, 0x20, 0x20, 0x20, 0x20, 0x20, 0x20, 0x20, 0x20, 0x20, 0x20,
   0x20, 0x20, 0x20, 0x20, 0x20, 0x20, 0x20, 0x20, 0x20, 0x20, 0x20, 0x20,
   0x20, 0x20, 0x20, 0x20, 0x20, 0x20, 0x20, 0x20, 0x20, 0x20, 0x20, 0x20,
   0x20, 0x20, 0x20, 0x20, 0x20, 0x20, 0x20, 0x20, 0x4d, 0x49, 0x54, 0x0a,
   0x53, 0x54, 0x44, 0x3a, 0x20, 0x33, 0x33, 0x20, 0x20, 0x20, 0x20, 0x20,
   0x20, 0x20, 0x20, 0x20, 0x20, 0x20, 0x20, 0x20, 0x20, 0x20, 0x20, 0x20,
   0x20, 0x20, 0x20, 0x20, 0x20, 0x20, 0x20, 0x20, 0x20, 0x20, 0x20, 0x20,
   0x20, 0x20, 0x20, 0x20, 0x20, 0x20, 0x20, 0x20, 0x20, 0x20, 0x20, 0x20,
   0x20, 0x20, 0x20, 0x20, 0x20, 0x20, 0x20, 0x20, 0x20, 0x20, 0x20, 0x20,
   0x20, 0x20, 0x20, 0x4a, 0x75, 0x6c, 0x79, 0x20, 0x31, 0x39, 0x39, 0x32,
   0x0a, 0x4f, 0x62, 0x73, 0x6f, 0x6c, 0x65, 0x74, 0x65, 0x73, 0x3a, 0x20,
   0x52, 0x46, 0x43, 0x20, 0x37, 0x38, 0x33, 0x0a, 0x0a, 0x0a, 0x20, 0x20,
   0x20, 0x20, 0x20, 0x20, 0x20, 0x20, 0x20, 0x20, 0x20, 0x20, 0x20, 0x20,
   0x20, 0x20, 0x20, 0x20, 0x20, 0x20, 0x20, 0x54, 0x48, 0x45, 0x20, 0x54,
   0x46, 0x54, 0x50, 0x20, 0x50, 0x52, 0x4f, 0x54, 0x4f, 0x43, 0x4f, 0x4c,
   0x20, 0x28, 0x52, 0x45, 0x56, 0x49, 0x53, 0x49, 0x4f, 0x4e, 0x20, 0x32,
   0x29, 0x0a, 0x0a, 0x53, 0x74, 0x61, 0x74, 0x75, 0x73, 0x20, 0x6f, 0x66,
   0x20, 0x74, 0x68, 0x69, 0x73, 0x20, 0x4d, 0x65, 0x6d, 0x6f, 0x0a, 0x0a,
   0x20, 0x20, 0x20, 0x54, 0x68, 0x69, 0x73, 0x20, 0x52, 0x46, 0x43, 0x20,
   0x73, 0x70, 0x65, 0x63, 0x69, 0x66, 0x69, 0x65, 0x73, 0x20, 0x61, 0x6e,
   0x20, 0x49, 0x41, 0x42, 0x20, 0x73, 0x74, 0x61, 0x6e, 0x64, 0x61, 0x72,
   0x64, 0x73, 0x20, 0x74, 0x72, 0x61, 0x63, 0x6b, 0x20, 0x70, 0x72, 0x6f,
   0x74, 0x6f, 0x63, 0x6f, 0x6c, 0x20, 0x66, 0x6f, 0x72, 0x20, 0x74, 0x68,
   0x65, 0x20, 0x49, 0x6e, 0x74, 0x65, 0x72, 0x6e, 0x65, 0x74, 0x0a, 0x20,
   0x20, 0x20, 0x63, 0x6f, 0x6d, 0x6d, 0x75, 0x6e, 0x69, 0x74, 0x79, 0x2c,
   0x20, 0x61, 0x6e, 0x64, 0x20, 0x72, 0x65, 0x71, 0x75, 0x65, 0x73, 0x74,
   0x73, 0x20, 0x64, 0x69, 0x73, 0x63, 0x75, 0x73, 0x73, 0x69, 0x6f, 0x6e,
   0x20, 0x61, 0x6e, 0x64, 0x20, 0x73, 0x75, 0x67, 0x67, 0x65, 0x73, 0x74,
   0x69, 0x6f, 0x6e, 0x73, 0x20, 0x66, 0x6f, 0x72, 0x20, 0x69, 0x6d, 0x70,
   0x72, 0x6f, 0x76, 0x65, 0x6d, 0x65, 0x6e, 0x74, 0x73, 0x2e, 0x0a, 0x20,
   0x20, 0x20, 0x50, 0x6c, 0x65, 0x61, 0x73, 0x65, 0x20, 0x72, 0x65, 0x66,
   0x65, 0x72, 0x20, 0x74, 0x6f, 0x20, 0x74, 0x68, 0x65, 0x20, 0x63, 0x75,
   0x72, 0x72, 0x65, 0x6e, 0x74, 0x20, 0x65, 0x64, 0x69, 0x74, 0x69, 0x6f,
   0x6e, 0x20, 0x6f, 0x66, 0x20, 0x74, 0x68, 0x65, 0x20, 0x22, 0x49, 0x41]

/-- Canonical ACK byte string from the reference tests. -/
def ACK_BYTES : List Nat :=
  [0x00, 0x04, 0x00, 0x09]

/-- Canonical ERROR byte string from the reference tests. -/
def ERR_BYTES : List Nat :=
  [0x00, 0x05, 0x00, 0x06, 0x45, 0x72, 0x72, 0x6f, 0x72, 0x00]

/-- A fixed client endpoint used by the concrete server runs. -/
def ep0 : IpEndpoint := ⟨1, 50000⟩

/-- A socket environment that delivers datagram `d` from `ep0` and whose
sends all succeed. -/
def envRecv (d : List Nat) : SockEnv :=
  { is_open := true, bindOk := true, recv := .ok d ep0,
    can_send := true, sendOk := true }

/-- A socket environment with nothing to receive and a sendable socket. -/
def envIdle : SockEnv :=
  { is_open := true, bindOk := true, recv := .exhausted,
    can_send := true, sendOk := true }

/-- A storage context whose `open` always fails (never reached in the runs
that use it). -/
def ctxNone : List Nat → Bool → Option HandleM := fun _ _ => none

/-- A storage context whose `open` yields handle 7 with a first `read` that
fails (`Err(())`). -/
def ctxReadFail : List Nat → Bool → Option HandleM :=
  fun _ _ => some ⟨7, [none], []⟩

/-- An idle read transfer holding a full 512-byte block, with an expired
retransmission deadline. -/
def xferIdle : Transfer :=
  { handle := ⟨7, [], []⟩, ep := ep0, is_write := false, block_num := 2,
    last_data := some (List.replicate 512 1), last_len := 512,
    retries := 0, timeout := 1000 }

/-- The wire bytes of an RRQ for file "f" (byte 102) in octet mode. -/
def RRQ_F : List Nat := [0, 1, 102, 0, 111, 99, 116, 101, 116, 0]

/-! ### Wire codec lemmas and claim C1 -/

lemma position_zero_append (f rest : List Nat) (h : 0 ∉ f) :
    position (fun b => decide (b = 0)) (f ++ 0 :: rest) = some f.length := by
  induction f with
  | nil => simp [position]
  | cons a t ih =>
    have ha : ¬ (a = 0) := fun e => h (by simp [e])
    simp [position, ha, ih fun m => h (List.mem_cons_of_mem _ m)]

lemma filename_emit (op : Nat) (f rest : List Nat) (h : 0 ∉ f) :
    filename (0 :: op :: (f ++ 0 :: rest)) = some f := by
  simp [filename, position_zero_append f rest h, List.take_left]

lemma get?_mode_byte (a b c : Nat) (f s : List Nat) :
    (a :: b :: (f ++ c :: s)).get? (2 + f.length + 1) = s.get? 0 := by
  have h1 : 2 + f.length + 1 = f.length + 1 + 2 := by omega
  rw [h1]
  show (f ++ c :: s).get? (f.length + 1) = s.get? 0
  rw [List.get?_append_right (by omega)]
  simp

lemma modeOf_emit (op : Nat) (f : List Nat) (m : Mode) (h : 0 ∉ f) :
    modeOf (0 :: op :: (f ++ 0 :: (m.as_str ++ [0]))) = some m := by
  simp only [modeOf, filename_emit op f _ h, get?_mode_byte]
  cases m <;> rfl

lemma parse_emit_read (f : List Nat) (m : Mode) (h : 0 ∉ f) :
    parse (emit (.readRequest f m)) = .ok (.readRequest f m) := by
  have e : emit (.readRequest f m) = 0 :: 1 :: (f ++ 0 :: (m.as_str ++ [0])) := by
    simp [emit]
  rw [e]
  have hop : opcode (0 :: 1 :: (f ++ 0 :: (m.as_str ++ [0]))) = .Read := rfl
  simp only [parse, hop, filename_emit 1 f _ h, modeOf_emit 1 f m h]

lemma parse_emit_write (f : List Nat) (m : Mode) (h : 0 ∉ f) :
    parse (emit (.writeRequest f m)) = .ok (.writeRequest f m) := by
  have e : emit (.writeRequest f m) = 0 :: 2 :: (f ++ 0 :: (m.as_str ++ [0])) := by
    simp [emit]
  rw [e]
  have hop : opcode (0 :: 2 :: (f ++ 0 :: (m.as_str ++ [0]))) = .Write := rfl
  simp only [parse, hop, filename_emit 2 f _ h, modeOf_emit 2 f m h]

lemma parse_emit_data (bn : Nat) (d : List Nat) (hbn : bn < 65536) :
    parse (emit (.data bn d)) = .ok (.data bn d) := by
  have e : emit (.data bn d)
      = 0 :: 3 :: (bn / 256 % 256) :: (bn % 256) :: d := rfl
  rw [e]
  have hop : opcode (0 :: 3 :: (bn / 256 % 256) :: (bn % 256) :: d) = .Data := rfl
  have hr : readU16 (0 :: 3 :: (bn / 256 % 256) :: (bn % 256) :: d) 2 = bn := by
    show 256 * (bn / 256 % 256) + (bn % 256) = bn
    omega
  have hb : block_number (0 :: 3 :: (bn / 256 % 256) :: (bn % 256) :: d) = some bn := by
    simp [block_number, hr]
  have hd : dataOf (0 :: 3 :: (bn / 256 % 256) :: (bn % 256) :: d) = some d := by
    simp [dataOf]
  simp only [parse, hop, hb, hd]

lemma parse_emit_ack (bn : Nat) (hbn : bn < 65536) :
    parse (emit (.ack bn)) = .ok (.ack bn) := by
  have e : emit (.ack bn) = 0 :: 4 :: (bn / 256 % 256) :: (bn % 256) :: [] := rfl
  rw [e]
  have hop : opcode (0 :: 4 :: (bn / 256 % 256) :: (bn % 256) :: []) = .Ack := rfl
  have hr : readU16 (0 :: 4 :: (bn / 256 % 256) :: (bn % 256) :: []) 2 = bn := by
    show 256 * (bn / 256 % 256) + (bn % 256) = bn
    omega
  have hb : block_number (0 :: 4 :: (bn / 256 % 256) :: (bn % 256) :: []) = some bn := by
    simp [block_number, hr]
  simp only [parse, hop, hb]

lemma parse_emit_error (c : ErrorCode) (msg : List Nat)
    (h1 : c.toNat < 65536) (h2 : ErrorCode.ofNat c.toNat = c) :
    parse (emit (.error c msg)) = .ok (.error c msg) := by
  have e : emit (.error c msg)
      = 0 :: 5 :: (c.toNat / 256 % 256) :: (c.toNat % 256) :: (msg ++ [0]) := rfl
  rw [e]
  have hop : opcode
      (0 :: 5 :: (c.toNat / 256 % 256) :: (c.toNat % 256) :: (msg ++ [0])) = .Error := rfl
  have hr : readU16
      (0 :: 5 :: (c.toNat / 256 % 256) :: (c.toNat % 256) :: (msg ++ [0])) 2 = c.toNat := by
    show 256 * (c.toNat / 256 % 256) + (c.toNat % 256) = c.toNat
    omega
  have hc : error_code
      (0 :: 5 :: (c.toNat / 256 % 256) :: (c.toNat % 256) :: (msg ++ [0])) = some c := by
    simp [error_code, hr, h2]
  have hlen : (0 :: 5 :: (c.toNat / 256 % 256) :: (c.toNat % 256) :: (msg ++ [0])).length
      = msg.length + 5 := by simp
  have hm : error_msg
      (0 :: 5 :: (c.toNat / 256 % 256) :: (c.toNat % 256) :: (msg ++ [0])) = some msg := by
    simp only [error_msg, hlen]
    rw [if_pos (by omega)]
    have : msg.length + 5 - 5 = msg.length := by omega
    simp only [List.drop_succ_cons, List.drop_zero, this]
    rw [List.take_left]
  simp only [parse, hop, hc, hm]

set_option maxRecDepth 100000 in
/-- Claim C1: for every valid TFTP representation, emitting it into a
buffer of exactly `buffer_len` bytes and parsing the result yields the
representation again; and for each of the five canonical byte strings from
the reference tests, emitting the parse of the bytes reproduces the bytes
exactly. -/
theorem claim_C1_codec_roundtrip :
    (∀ r : TftpRepr, wellFormed r → parse (emit r) = .ok r)
    ∧ (∀ r : TftpRepr, (emit r).length = buffer_len r)
    ∧ emitParse RRQ_BYTES = some RRQ_BYTES
    ∧ emitParse WRQ_BYTES = some WRQ_BYTES
    ∧ emitParse DATA_BYTES = some DATA_BYTES
    ∧ emitParse ACK_BYTES = some ACK_BYTES
    ∧ emitParse ERR_BYTES = some ERR_BYTES := by
  refine ⟨?_, ?_, by decide, by decide, by decide, by decide, by decide⟩
  · intro r h
    cases r with
    | readRequest f m => exact parse_emit_read f m h
    | writeRequest f m => exact parse_emit_write f m h
    | data bn d => exact parse_emit_data bn d h.1
    | ack bn => exact parse_emit_ack bn h
    | error c msg => exact parse_emit_error c msg h.1 h.2
  · intro r
    cases r <;> simp [emit, buffer_len, u16be] <;> omega

/-- Witness for C1: the round-trip theorem applied at the concrete
representation `Ack 9`. -/
theorem claim_C1_codec_roundtrip_witness :
    wellFormed (TftpRepr.ack 9)
    ∧ parse (emit (TftpRepr.ack 9)) = .ok (TftpRepr.ack 9) :=
  ⟨by show (9 : Nat) < 65536; decide,
   claim_C1_codec_roundtrip.1 (TftpRepr.ack 9) (by show (9 : Nat) < 65536; decide)⟩

/-! ### Claims C2 to C5: the server against malformed input, idle polls,
failed reads, and length validation -/

/-- Claim C2 fails on the code: the two-byte datagram 00 01 (an RRQ opcode
and nothing else) passes `check_len`, because `find_last_null_byte` is
satisfied by the zero byte inside the opcode itself, yet `Repr::parse` then
panics inside `Packet::filename` (`position(..).unwrap()` on `None`), so
`serve` panics instead of answering with an ERROR packet. -/
theorem claim_C2_serve_panics_on_malformed :
    check_len [0, 1] = .ok ()
    ∧ (serve ⟨0⟩ (envRecv [0, 1]) ctxNone [none] 0).res = .panic := by
  decide

set_option maxRecDepth 10000 in
/-- Claim C3 fails on the code: `serve` first schedules
`next_poll = now + 50 ms` and only then guards the retransmission sweep
with `now >= self.next_poll`, which is always false; a poll with no
incoming packet therefore leaves a transfer whose deadline expired long ago
(retries 0, deadline 1000, polled at 10^9) completely untouched, sending
nothing and closing nothing, where the claim requires a resend of its DATA
block. -/
theorem claim_C3_retransmission_never_runs :
    serve ⟨0⟩ envIdle ctxNone [some xferIdle] 1000000000
      = ⟨.ok (), ⟨1000000050⟩, [some xferIdle], [], []⟩ := by
  decide

set_option maxRecDepth 10000 in
/-- Claim C4 fails on the code: when the first storage read of a fresh read
transfer fails, `send_data` sends the ERROR packet and returns a drop flag
of `Ok(false)`, which the creation site discards; the transfer is still
enqueued into its slot and `Context::close` is never called. -/
theorem claim_C4_read_error_transfer_kept :
    (serve ⟨0⟩ (envRecv RRQ_F) ctxReadFail [none] 0).res = .ok ()
    ∧ (serve ⟨0⟩ (envRecv RRQ_F) ctxReadFail [none] 0).sent
        = [(.error .AccessViolation
            (strBytes "Error occurred while reading the file"), ep0)]
    ∧ ((serve ⟨0⟩ (envRecv RRQ_F) ctxReadFail [none] 0).transfers.getD 0 none).isSome
        = true
    ∧ (serve ⟨0⟩ (envRecv RRQ_F) ctxReadFail [none] 0).closed = [] := by
  decide

/-- Counterexample to claim C5: the four-byte ERROR buffer 00 05 00 00 is
shorter than the minimal ERROR packet (opcode, error code, and a
NUL-terminated message need at least five bytes), yet `check_len` accepts
it: any zero byte anywhere in the buffer, even inside the header fields,
satisfies `find_last_null_byte`. -/
theorem claim_C5_cex_short_error_accepted :
    check_len [0, 5, 0, 0] = .ok ()
    ∧ check_len [0, 5, 0, 0] ≠ .error .Truncated := by
  decide

lemma find_last_null_byte_none_iff (buf : List Nat) :
    find_last_null_byte buf = none ↔ 0 ∉ buf := by
  induction buf with
  | nil => simp [find_last_null_byte]
  | cons a t ih =>
    rw [find_last_null_byte]
    cases h : find_last_null_byte t with
    | some p =>
      have h0 : 0 ∈ t := by
        by_contra hc
        have := ih.mpr hc
        rw [h] at this
        exact Option.noConfusion this
      simp [List.mem_cons, h0]
    | none =>
      by_cases ha : a = 0
      · simp [ha, List.mem_cons]
      · have ha' : ¬ (0 = a) := fun e => ha e.symm
        simp [ha, ha', List.mem_cons, ih.mp h]

lemma find_last_null_byte_le (buf : List Nat) :
    ∀ p, find_last_null_byte buf = some p → p ≤ buf.length := by
  induction buf with
  | nil => intro p h; cases h
  | cons a t ih =>
    intro p h
    rw [find_last_null_byte] at h
    cases ht : find_last_null_byte t with
    | some q =>
      rw [ht] at h
      cases h
      have := ih q ht
      simp only [List.length_cons]
      omega
    | none =>
      rw [ht] at h
      by_cases ha : a = 0
      · rw [if_pos ha] at h
        cases h
        simp
      · rw [if_neg ha] at h
        cases h

/-- Claim C5 amended: `check_len` returns `Truncated` exactly for buffers
shorter than 2 bytes, for RRQ/WRQ/ERROR buffers containing no zero byte at
all (the minimum length of the NUL-terminated fields is not otherwise
enforced: any zero byte, even inside the header, satisfies the check), and
for DATA/ACK buffers shorter than 4 bytes; it returns `Malformed` exactly
for buffers of length at least 2 whose opcode is not one of 1 to 5. -/
theorem claim_C5_check_len_characterization (buf : List Nat) :
    (check_len buf = .error .Truncated ↔
      buf.length < 2
      ∨ ((opcode buf = .Read ∨ opcode buf = .Write ∨ opcode buf = .Error)
          ∧ 2 ≤ buf.length ∧ 0 ∉ buf)
      ∨ ((opcode buf = .Data ∨ opcode buf = .Ack)
          ∧ 2 ≤ buf.length ∧ buf.length < 4))
    ∧ (check_len buf = .error .Malformed ↔
      2 ≤ buf.length ∧ ∃ n, opcode buf = .Unknown n) := by
  by_cases h2 : buf.length < 2
  · rw [check_len, if_pos h2]
    constructor
    · simp [h2]
    · simp [show ¬ (2 ≤ buf.length) from by omega]
  · rw [check_len, if_neg h2]
    have h2' : 2 ≤ buf.length := by omega
    cases ho : opcode buf with
    | Read =>
      cases hf : find_last_null_byte buf with
      | none =>
        have h0 : 0 ∉ buf := (find_last_null_byte_none_iff buf).mp hf
        exact ⟨by simp [h2', h0], by simp⟩
      | some e =>
        have hle : e ≤ buf.length := find_last_null_byte_le buf e hf
        have h0 : 0 ∈ buf := by
          by_contra hc
          have := (find_last_null_byte_none_iff buf).mpr hc
          rw [hf] at this
          exact Option.noConfusion this
        have hlt : ¬ buf.length < e := by omega
        exact ⟨by simp [hlt, h2, h0], by simp [hlt]⟩
    | Write =>
      cases hf : find_last_null_byte buf with
      | none =>
        have h0 : 0 ∉ buf := (find_last_null_byte_none_iff buf).mp hf
        exact ⟨by simp [h2', h0], by simp⟩
      | some e =>
        have hle : e ≤ buf.length := find_last_null_byte_le buf e hf
        have h0 : 0 ∈ buf := by
          by_contra hc
          have := (find_last_null_byte_none_iff buf).mpr hc
          rw [hf] at this
          exact Option.noConfusion this
        have hlt : ¬ buf.length < e := by omega
        exact ⟨by simp [hlt, h2, h0], by simp [hlt]⟩
    | Error =>
      cases hf : find_last_null_byte buf with
      | none =>
        have h0 : 0 ∉ buf := (find_last_null_byte_none_iff buf).mp hf
        exact ⟨by simp [h2', h0], by simp⟩
      | some e =>
        have hle : e ≤ buf.length := find_last_null_byte_le buf e hf
        have h0 : 0 ∈ buf := by
          by_contra hc
          have := (find_last_null_byte_none_iff buf).mpr hc
          rw [hf] at this
          exact Option.noConfusion this
        have hlt : ¬ buf.length < e := by omega
        exact ⟨by simp [hlt, h2, h0], by simp [hlt]⟩
    | Data =>
      by_cases h4 : buf.length < 4
      · exact ⟨by simp [h2', h4], by simp [h4]⟩
      · exact ⟨by simp [h2, h4], by simp [h4]⟩
    | Ack =>
      by_cases h4 : buf.length < 4
      · exact ⟨by simp [h2', h4], by simp [h4]⟩
      · exact ⟨by simp [h2, h4], by simp [h4]⟩
    | Unknown n =>
      exact ⟨by simp [h2], by simp [h2']⟩

/-- Witness for the amended C5: the characterization applied to the
three-byte buffer 00 07 00, whose opcode 7 is unknown, yields Malformed. -/
theorem claim_C5_check_len_characterization_witness :
    check_len [0, 7, 0] = .error .Malformed :=
  (claim_C5_check_len_characterization [0, 7, 0]).2.mpr ⟨by decide, 7, by decide⟩

/-! ### Claim C9: DATA received on a read transfer -/

set_option maxRecDepth 10000 in
/-- Counterexample to claim C9: a DATA packet arriving on an existing read
transfer is answered with the message "Not a write connection", not
"Not a read connection" (the latter is the reply to an ACK on a write
transfer, src/tftp/mod.rs lines 355-362 versus 307-315). -/
theorem claim_C9_cex_data_on_read_message :
    (serve ⟨0⟩ (envRecv [0, 3, 0, 1]) ctxNone [some xferIdle] 0).sent
      = [(.error .AccessViolation (strBytes "Not a write connection"), ep0)]
    ∧ strBytes "Not a write connection" ≠ strBytes "Not a read connection" := by
  decide

lemma check_len_data_pkt (bn : Nat) (d : List Nat) :
    check_len (0 :: 3 :: (bn / 256 % 256) :: (bn % 256) :: d) = .ok () := by
  rw [check_len]
  have hlen : (0 :: 3 :: (bn / 256 % 256) :: (bn % 256) :: d).length
      = d.length + 4 := by simp
  rw [hlen]
  rw [if_neg (by omega : ¬ (d.length + 4 < 2))]
  show (if d.length + 4 < 4 then (Except.error WireError.Truncated : Except WireError Unit)
        else .ok ()) = .ok ()
  rw [if_neg (by omega)]

/-- Claim C9 amended: when a DATA packet arrives on an existing transfer
that is a read transfer, the server replies to the client endpoint with an
ERROR packet whose code is AccessViolation and whose message is
"Not a write connection". -/
theorem claim_C9_data_on_read_reply
    (srv : Server) (bo cs : Bool) (openF : List Nat → Bool → Option HandleM)
    (transfers : List (Option Transfer)) (now : Int)
    (bn : Nat) (d : List Nat) (idx : Nat) (x : Transfer)
    (hbn : bn < 65536)
    (hidx : position (epMatch x.ep) transfers = some idx)
    (hget : transfers.get? idx = some (some x))
    (hread : x.is_write = false) :
    (serve srv ⟨true, bo, .ok (0 :: 3 :: (bn / 256 % 256) :: (bn % 256) :: d) x.ep, cs, true⟩
        openF transfers now).sent
      = [(.error .AccessViolation (strBytes "Not a write connection"), x.ep)] := by
  have hchk : check_len (0 :: 3 :: (bn / 256 % 256) :: (bn % 256) :: d) = .ok () :=
    check_len_data_pkt bn d
  have hparse : parse (0 :: 3 :: (bn / 256 % 256) :: (bn % 256) :: d)
      = .ok (.data bn d) := parse_emit_data bn d hbn
  simp only [serve, hchk, hparse]
  simp only [dispatch, hidx, hget, send_error]
  simp [hread]

set_option maxRecDepth 100000 in
/-- Witness for the amended C9: the reply theorem applied at a concrete
single-slot table holding the idle read transfer. -/
theorem claim_C9_data_on_read_reply_witness :
    1 < 65536
    ∧ position (epMatch xferIdle.ep) [some xferIdle] = some 0
    ∧ [some xferIdle].get? 0 = some (some xferIdle)
    ∧ xferIdle.is_write = false
    ∧ (serve ⟨0⟩ ⟨true, true, .ok (0 :: 3 :: (1 / 256 % 256) :: (1 % 256) :: []) xferIdle.ep,
          true, true⟩ ctxNone [some xferIdle] 0).sent
        = [(.error .AccessViolation (strBytes "Not a write connection"), xferIdle.ep)] :=
  ⟨by decide, by decide, by decide, by decide,
   claim_C9_data_on_read_reply ⟨0⟩ true true ctxNone [some xferIdle] 0 1 [] 0 xferIdle
     (by decide) (by decide) (by decide) (by decide)⟩

end Tftp

namespace Sntp

/-! ### Claims C6, C7, C10: the SNTP client -/

lemma poll_cases (c : Client) (env : SntpEnv) (now : Int) :
    poll c env now = (.err, c)
    ∨ (∃ ts, poll c env now
        = (.ok (some ts), { c with next_request := now + (MAX_REQUEST_INTERVAL : Int) }))
    ∨ poll c env now
        = (.ok none, { next_request := now + (c.curr_interval : Int),
                       curr_interval := min MAX_REQUEST_INTERVAL (c.curr_interval * 2) })
    ∨ poll c env now = (.ok none, c) := by
  simp only [poll]
  split
  · exact Or.inl rfl
  · split
    · exact Or.inl rfl
    · split
      · exact Or.inr (Or.inl ⟨_, rfl⟩)
      · split
        · split
          · exact Or.inr (Or.inr (Or.inl rfl))
          · exact Or.inl rfl
        · exact Or.inr (Or.inr (Or.inr rfl))

lemma receive_none_poll_eq (data : List Nat) (hrecv : receive data = none)
    (c : Client) (now : Int) (io bo cs so : Bool) :
    poll c ⟨io, bo, .ok data, cs, so⟩ now
      = poll c ⟨io, bo, .exhausted, cs, so⟩ now := by
  simp only [poll, hrecv]

/-- Claim C6: a poll that receives a 48-byte datagram parsing to protocol
mode Server, stratum 1 (Primary) and zero transmit seconds returns
Ok(Some(2085978496)); a datagram parsing to stratum 0 (Kiss-of-Death)
produces no timestamp, and the whole poll (result and client state, hence
`next_request` and `curr_interval`) behaves exactly as a poll with no
incoming packet. -/
theorem claim_C6_accept_and_kiss_of_death :
    (∀ data : List Nat, 48 ≤ data.length →
      (sntpParse data).protocol_mode = .Server →
      (sntpParse data).stratum = .Primary →
      (sntpParse data).xmit_timestamp.sec = 0 →
      receive data = some 2085978496
      ∧ ∀ (c : Client) (now : Int) (bo cs so : Bool),
          (poll c ⟨true, bo, .ok data, cs, so⟩ now).1 = .ok (some 2085978496))
    ∧ (∀ data : List Nat, (sntpParse data).stratum = .KissOfDeath →
      receive data = none
      ∧ ∀ (c : Client) (now : Int) (io bo cs so : Bool),
          poll c ⟨io, bo, .ok data, cs, so⟩ now
            = poll c ⟨io, bo, .exhausted, cs, so⟩ now) := by
  constructor
  · intro data hlen hmode hstrat hsec
    have hchk : sntpCheckLen data = .ok () := by
      rw [sntpCheckLen, if_neg (by omega)]
    have hr : receive data = some 2085978496 := by
      simp [receive, hchk, hmode, hstrat, hsec, DIFF_SEC_1970_2036]
    refine ⟨hr, ?_⟩
    intro c now bo cs so
    simp [poll, hr]
  · intro data hkod
    have hrecv : receive data = none := by
      cases hchk : sntpCheckLen data with
      | error e => simp [receive, hchk]
      | ok u =>
        by_cases hm : (sntpParse data).protocol_mode = ProtocolMode.Server
        · simp [receive, hchk, hm, hkod]
        · simp [receive, hchk, hm]
    exact ⟨hrecv, fun c now io bo cs so => receive_none_poll_eq data hrecv c now io bo cs so⟩

/-- Witness for C6: the theorem applied to the concrete valid response and
the concrete Kiss-of-Death response. -/
theorem claim_C6_accept_and_kiss_of_death_witness :
    48 ≤ okResponse.length
    ∧ (sntpParse okResponse).protocol_mode = .Server
    ∧ (sntpParse okResponse).stratum = .Primary
    ∧ (sntpParse okResponse).xmit_timestamp.sec = 0
    ∧ receive okResponse = some 2085978496
    ∧ (sntpParse kodResponse).stratum = .KissOfDeath
    ∧ receive kodResponse = none :=
  ⟨by decide, by decide, by decide, by decide,
   (claim_C6_accept_and_kiss_of_death.1 okResponse
     (by decide) (by decide) (by decide) (by decide)).1,
   by decide,
   (claim_C6_accept_and_kiss_of_death.2 kodResponse (by decide)).1⟩

/-- Counterexample to claim C7: an accepting poll (valid server response at
time 5, client fresh from the constructor) leaves `curr_interval` at
MIN_REQUEST_INTERVAL = 60000 instead of resetting it to
MAX_REQUEST_INTERVAL: the acceptance branch of `poll` only updates
`next_request`. -/
theorem claim_C7_cex_interval_not_reset :
    (poll client0 (senv okResponse) 5).1 = .ok (some 2085978496)
    ∧ (poll client0 (senv okResponse) 5).2.curr_interval = 60000
    ∧ (poll client0 (senv okResponse) 5).2.curr_interval ≠ MAX_REQUEST_INTERVAL := by
  decide

/-- Claim C7 amended: when `poll` accepts a valid server response, the only
state change is `next_request := now + MAX_REQUEST_INTERVAL`;
`curr_interval` keeps its previous value (it is not reset). -/
theorem claim_C7_accept_updates_only_deadline
    (c : Client) (env : SntpEnv) (now : Int) (ts : Nat)
    (h : (poll c env now).1 = .ok (some ts)) :
    (poll c env now).2
      = { next_request := now + (MAX_REQUEST_INTERVAL : Int),
          curr_interval := c.curr_interval } := by
  rcases poll_cases c env now with h1 | ⟨ts2, h1⟩ | h1 | h1
  · rw [h1] at h; simp at h
  · rw [h1]
  · rw [h1] at h; simp at h
  · rw [h1] at h; simp at h

/-- Witness for the amended C7: the acceptance theorem applied to the fresh
client receiving the valid response at time 5. -/
theorem claim_C7_accept_updates_only_deadline_witness :
    (poll client0 (senv okResponse) 5).1 = .ok (some 2085978496)
    ∧ (poll client0 (senv okResponse) 5).2
        = { next_request := 5 + (MAX_REQUEST_INTERVAL : Int),
            curr_interval := client0.curr_interval } :=
  ⟨by decide,
   claim_C7_accept_updates_only_deadline client0 (senv okResponse) 5 2085978496 (by decide)⟩

/-- Claim C10: whenever `poll` returns Err (bind failure, a receive error
other than Exhausted, or a send failure inside `request`), the client state
is unchanged: `next_request` and `curr_interval` keep their values. -/
theorem claim_C10_poll_err_state_unchanged
    (c : Client) (env : SntpEnv) (now : Int)
    (h : (poll c env now).1 = .err) :
    (poll c env now).2 = c := by
  rcases poll_cases c env now with h1 | ⟨ts2, h1⟩ | h1 | h1
  · rw [h1]
  · rw [h1] at h; simp at h
  · rw [h1] at h; simp at h
  · rw [h1]

/-- Witness for C10: the theorem applied to a client whose socket bind
fails. -/
theorem claim_C10_poll_err_state_unchanged_witness :
    (poll client0 senvBindFail 0).1 = .err
    ∧ (poll client0 senvBindFail 0).2 = client0 :=
  ⟨by decide, claim_C10_poll_err_state_unchanged client0 senvBindFail 0 (by decide)⟩

end Sntp

end Smolapps
